import Mathlib

/-!
Verification of the reservation / wait-queue / refund core of the Blitz-API
repository (src/retirement/serializers.py, src/retirement/views.py).

Conventions of the shallow embedding:
* time is measured in whole minutes (an `Int`); `timedelta(days=d)` is
  `1440 * d` minutes and `timedelta(hours=23, minutes=55)` is `1435` minutes;
* money is an exact rational (`ℚ`), matching Python `Decimal` arithmetic on
  the values the code manipulates; the configured selling-tax rate
  (`settings.LOCAL_SETTINGS` key SELLING_TAX) is an abstract rational `t`;
* Python `round(x, 2)` on `Decimal` rounds half to even, and `int(x)`
  truncates toward zero; both are embedded below;
* database rows are records, querysets are lists, and a raised
  `ValidationError` inside `transaction.atomic` rolls everything back, so a
  fallible operation is a function into `Except`, the error carrying no
  state change.
-/

deriving instance DecidableEq for Except

namespace Blitz



/-- Round a rational to the nearest integer, halves to the even neighbour.
This is Python `Decimal` rounding (ROUND_HALF_EVEN) for exact inputs. -/
def roundHalfEven (q : ℚ) : ℤ :=
  if q - ⌊q⌋ = 1 / 2 then (if ⌊q⌋ % 2 = 0 then ⌊q⌋ else ⌊q⌋ + 1) else round q

/-- Python `round(x, 2)` on a `Decimal`: keep two decimal places, half to even. -/
def round2 (q : ℚ) : ℚ := (roundHalfEven (q * 100) : ℚ) / 100

/-- Python `int(x)`: truncation toward zero. -/
def pyInt (q : ℚ) : ℤ := if 0 ≤ q then ⌊q⌋ else ⌈q⌉

/-- The repository's conversion of a `Decimal` dollar amount `q` into the
integer cent amount sent to the payment gateway:
`int(round(q * 100, 2))`. -/
def toCents (q : ℚ) : ℤ := pyInt (round2 (q * 100))

/-! ## `RetirementSerializer.get_places_remaining` (serializers.py:122-126) -/

structure ReservationLite where
  is_active : Bool
deriving DecidableEq

structure RetirementObj where
  seats : Nat
  reserved_seats : Nat
  reservations : List ReservationLite
deriving DecidableEq

namespace RetirementSerializer

/-- Embeds `RetirementSerializer.get_places_remaining`
(src/retirement/serializers.py:122-126): `seats` minus the number of the
object's reservations with `is_active=True` minus `reserved_seats`. -/
def get_places_remaining (obj : RetirementObj) : Int :=
  let seats := obj.seats
  let reserved_seats := obj.reserved_seats
  let reservations := (obj.reservations.filter fun r => r.is_active).length
  (seats : Int) - reservations - reserved_seats

end RetirementSerializer

/-! ## `ReservationSerializer.validate`, creation path (serializers.py:278-324) -/

/-- One row of the Reservation table, together with the start/end time of its
retirement (the values the overlap query reads through
`retirement__start_time` / `retirement__end_time`). -/
structure ResRow where
  user : Nat
  retirement : Nat
  order_line : Nat
  is_active : Bool
  start_time : Int
  end_time : Int
deriving DecidableEq

/-- The `validated_data` of a reservation-creation request: the submitted
model fields (a typical create names the user, the retirement, the order
line and the activity flag). -/
structure ReservationData where
  user : Nat
  retirement : Nat
  order_line : Nat
  is_active : Bool
deriving DecidableEq

inductive ValidateError
  | overlap
deriving DecidableEq

/-- The row matches every submitted field of `validated_data`; this is the
predicate of the `.exclude(**validated_data)` call in
`ReservationSerializer.validate`. -/
def matchesValidatedData (d : ReservationData) (r : ResRow) : Bool :=
  r.user = d.user && r.retirement = d.retirement &&
    r.order_line = d.order_line && r.is_active = d.is_active

namespace ReservationSerializer

/-- Embeds the creation path of `ReservationSerializer.validate`
(src/retirement/serializers.py:278-324).  `start` and `endt` are the
requested retirement's `start_time` / `end_time`; `rows` is the Reservation
table.  The code filters the user's active reservations, drops the rows
matched by `.exclude(**validated_data)`, and raises on the first pair with
`max(existing.start, new.start) < min(existing.end, new.end)`. -/
def validate (d : ReservationData) (start endt : Int) (rows : List ResRow) :
    Except ValidateError Unit :=
  let active := (rows.filter fun r => r.user = d.user && r.is_active).filter
    fun r => !matchesValidatedData d r
  if active.any fun r => decide (max r.start_time start < min r.end_time endt) then
    .error .overlap
  else
    .ok ()

end ReservationSerializer

/-! ## `ReservationViewSet.destroy` (views.py:336-442), user cancellation -/

inductive CancelReason
  | none
  | user
deriving DecidableEq

inductive CancelAction
  | none
  | refunded
  | notRefunded
  | exchanged
deriving DecidableEq

structure OrderLineRec where
  quantity : Nat
  cost : ℚ
  refunded : Bool
deriving DecidableEq

structure ReservationRec where
  is_active : Bool
  cancelation_reason : CancelReason
  cancelation_action : CancelAction
  cancelation_date : Option Int
deriving DecidableEq

structure RetreatRec where
  seats : Nat
  reserved_seats : Nat
  start_time : Int
  min_day_refund : Nat
  refund_rate : Nat
deriving DecidableEq

/-- The data `ReservationViewSet.destroy` reads and writes: the reservation
being deleted, its optional order line, its retreat, and the number of
*other* active reservations of that retreat (`otherActive`), through which
the retreat's `places_remaining` property is evaluated. -/
structure DestroyState where
  res : ReservationRec
  order_line : Option OrderLineRec
  retreat : RetreatRec
  otherActive : Nat
deriving DecidableEq

inductive DestroyResp
  | noContent
  | quantityError
deriving DecidableEq

/-- Result of a `destroy` call: the (possibly rolled-back) database state,
the HTTP outcome, the dollar amounts of the gateway refund calls issued, and
whether the wait-queue scheduler's promotion check was pinged
(`retreat.notify_scheduler_waite_queue`). -/
structure DestroyOutcome where
  state : DestroyState
  resp : DestroyResp
  refunds : List ℚ
  notifiedScheduler : Bool
deriving DecidableEq

/-- Modelled from the spec: `Reservation.refundable` is a model property not
under src/.  Per §4.4, an order line is refundable when its quantity is 1
and it has not already been refunded. -/
def refundableOL (ol : OrderLineRec) : Bool :=
  ol.quantity == 1 && !ol.refunded

/-- Modelled from the spec: `Reservation.make_refund` is a model method not
under src/.  Per §4.4 it issues a gateway refund of `refund_rate` percent of
the paid price plus proportional tax; `t` is the configured tax rate. -/
def make_refund (t : ℚ) (rate : Nat) (cost : ℚ) : ℚ :=
  cost * (rate : ℚ) / 100 * (1 + t)

/-- The check `(retreat.start_time - timezone.now()) >=
timedelta(days=retreat.min_day_refund)` of views.py:369-371, in minutes. -/
def respectsMinDayRefund (s : DestroyState) (now : Int) : Bool :=
  decide (1440 * (s.retreat.min_day_refund : Int) ≤ s.retreat.start_time - now)

/-- Modelled from the spec: `Retreat.places_remaining` is a model property
not under src/; per §4.2 (and `RetirementSerializer.get_places_remaining`
in src/) it is seats minus active reservations minus reserved seats.  Here
it is evaluated at the point views.py:416 reads it, i.e. after the canceled
reservation was already saved inactive, so the active count is
`otherActive`. -/
def placesRemainingAfterCancel (s : DestroyState) : Int :=
  (s.retreat.seats : Int) - s.otherActive - s.retreat.reserved_seats

namespace ReservationViewSet

/-- Embeds `ReservationViewSet.destroy` (src/retirement/views.py:336-442).
`t` is the configured tax rate.  An inactive reservation returns 204 with no
change; an active one behind an order line of quantity > 1 raises (rolled
back by `transaction.atomic`, hence the unchanged state in the outcome);
otherwise the reservation is soft-canceled, a gateway refund is issued when
the cancellation respects `min_day_refund` and the line is refundable, one
seat is re-reserved when `retreat.reserved_seats` is truthy or exactly one
place remains, and the wait-queue scheduler is pinged.  The payment gateway
is modelled as always accepting the refund call. -/
def destroy (t : ℚ) (s : DestroyState) (now : Int) : DestroyOutcome :=
  let refundable := (s.order_line.map refundableOL).getD false
  if s.res.is_active then
    if 1 < (s.order_line.map OrderLineRec.quantity).getD 0 then
      ⟨s, .quantityError, [], false⟩
    else
      let doRefund := respectsMinDayRefund s now && refundable
      let refunds :=
        if doRefund then
          [make_refund t s.retreat.refund_rate
            ((s.order_line.map OrderLineRec.cost).getD 0)]
        else []
      let res' : ReservationRec :=
        { is_active := false
          cancelation_reason := .user
          cancelation_action := if doRefund then .refunded else .notRefunded
          cancelation_date := some now }
      let free_seats := placesRemainingAfterCancel s
      let reserved' :=
        if s.retreat.reserved_seats != 0 || free_seats == 1 then
          s.retreat.reserved_seats + 1
        else
          s.retreat.reserved_seats
      ⟨{ s with
          res := res'
          retreat := { s.retreat with reserved_seats := reserved' } },
        .noContent, refunds, true⟩
  else
    ⟨s, .noContent, [], false⟩

end ReservationViewSet

/-! ## `ReservationSerializer.update`, exchange sub-flow (serializers.py:326-709) -/

/-- The data the exchange sub-flow of `ReservationSerializer.update` reads:
the reservation being exchanged (its order line's quantity, its current
retirement's price, start time and `min_day_exchange`), the requested
retirement (price, interval, seat counters), the submitted payment tokens,
whether a local `PaymentProfile` exists, the other active reservations of
the user (the overlap query excludes `pk=instance.pk`), and the user's
wait-queue and notification rows for the requested retirement. -/
structure ExchangeEnv where
  quantity : Nat
  oldPrice : ℚ
  newPrice : ℚ
  sameRetirement : Bool
  oldStart : Int
  min_day_exchange : Nat
  newStart : Int
  newEnd : Int
  otherReservations : List (Int × Int)
  hasProfile : Bool
  payment_token : Bool
  single_use_token : Bool
  nseats : Nat
  ntotal : Nat
  nreserved : Nat
  userInWaitQueue : Bool
  userNotifs : Nat
deriving DecidableEq

inductive ExchangeError
  | quantityGt1
  | paymentTokenRequired
  | sameRetirementAssigned
  | maxExchangeDateExceeded
  | overlap
  | noPlacesLeft
  | chargeUndefined
deriving DecidableEq

/-- Observable outcome of a successful exchange: the integer cent amounts
charged and refunded through the payment gateway, the dollar amounts of the
local `Refund` rows created, the requested retirement's `reserved_seats` and
the user's `WaitQueueNotification` count for it after the update, whether
the user still has wait-queue rows for it, whether a `PaymentProfile` was
created, and that the old reservation copy was marked exchanged
(`cancelation_action='E'`). -/
structure ExchangeOutcome where
  charges : List Int
  gatewayRefunds : List Int
  refundRows : List ℚ
  reservedAfter : Nat
  notifsAfter : Nat
  userInWaitQueueAfter : Bool
  profileCreated : Bool
  oldMarkedExchanged : Bool
deriving DecidableEq

/-- The availability test of serializers.py:457-461 and 567-571: places
remain, or the retirement has reserved seats and the user has some
`WaitQueueNotification` row for it (no age condition). -/
def exchangeSeatAvailable (env : ExchangeEnv) : Bool :=
  decide (0 < (env.nseats : Int) - env.ntotal - env.nreserved) ||
    (env.nreserved != 0 && env.userNotifs != 0)

namespace ReservationSerializer

/-- Embeds the exchange sub-flow of `ReservationSerializer.update`
(src/retirement/serializers.py:326-709), i.e. a partial update whose
`validated_data` names a different-or-same `retirement`.  `t` is the
configured tax rate.  Following the code's order: the order-line quantity
check; `need_transaction` / `need_refund` from the price comparison and the
token requirement; the same-retirement and `min_day_exchange` checks;
profile creation for a `single_use_token` without profile; the overlap
check excluding the instance; then, only inside the priced branches, the
availability test, the deletion of the user's wait-queue rows, and the
gateway charge (`int(round(delta*(1+t)*100, 2))` cents) or refund of the
same conversion of the delta.  `reserved_seats` and the notification rows
of the requested retirement are not touched by this flow.  A validation
error rolls the whole update back (`transaction.atomic`).  The gateway is
modelled as accepting every call; the `charge_response` name is undefined
when no charge was sent (`int(amount)` equal to 0), embedded as
`chargeUndefined`. -/
def update (t : ℚ) (env : ExchangeEnv) (now : Int) :
    Except ExchangeError ExchangeOutcome :=
  if 1 < env.quantity then .error .quantityGt1 else
  let respects_minimum_days :=
    decide (1440 * (env.min_day_exchange : Int) ≤ env.oldStart - now)
  let need_transaction := decide (env.oldPrice < env.newPrice)
  let need_refund := decide (env.newPrice < env.oldPrice)
  if need_transaction && !(env.payment_token || env.single_use_token) then
    .error .paymentTokenRequired else
  if env.sameRetirement then .error .sameRetirementAssigned else
  if !respects_minimum_days then .error .maxExchangeDateExceeded else
  let profileCreated := need_transaction && env.single_use_token && !env.hasProfile
  if env.otherReservations.any fun r =>
      decide (max r.1 env.newStart < min r.2 env.newEnd) then
    .error .overlap else
  if need_transaction then
    let amountRounded := round2 ((env.newPrice - env.oldPrice) * (1 + t) * 100)
    let amountCents := pyInt amountRounded
    if !exchangeSeatAvailable env then .error .noPlacesLeft else
    if env.payment_token && amountCents != 0 then
      .ok { charges := [amountCents], gatewayRefunds := []
            refundRows := [env.oldPrice * (1 + t)]
            reservedAfter := env.nreserved, notifsAfter := env.userNotifs
            userInWaitQueueAfter := false, profileCreated
            oldMarkedExchanged := true }
    else if env.single_use_token && amountCents != 0 then
      .ok { charges := [amountCents], gatewayRefunds := []
            refundRows := [env.oldPrice * (1 + t)]
            reservedAfter := env.nreserved, notifsAfter := env.userNotifs
            userInWaitQueueAfter := false, profileCreated
            oldMarkedExchanged := true }
    else .error .chargeUndefined
  else if need_refund then
    let amountRounded := round2 ((env.oldPrice - env.newPrice) * (1 + t) * 100)
    let amountCents := pyInt amountRounded
    if !exchangeSeatAvailable env then .error .noPlacesLeft else
    .ok { charges := [], gatewayRefunds := [amountCents]
          refundRows := [amountRounded / 100]
          reservedAfter := env.nreserved, notifsAfter := env.userNotifs
          userInWaitQueueAfter := false, profileCreated
          oldMarkedExchanged := true }
  else
    .ok { charges := [], gatewayRefunds := [], refundRows := []
          reservedAfter := env.nreserved, notifsAfter := env.userNotifs
          userInWaitQueueAfter := env.userInWaitQueue, profileCreated
          oldMarkedExchanged := true }

end ReservationSerializer

/-- The exchange call succeeded. -/
def exchangeOk : Except ExchangeError ExchangeOutcome → Bool
  | .ok _ => true
  | .error _ => false

/-! ## `RetreatViewSet.notify` (views.py:112-163) -/

structure WQNotification where
  user : Nat
  created_at : Int
deriving DecidableEq

/-- The data `RetreatViewSet.notify` touches on one retreat: its
notification rows, its wait queue (user ids in `created_at` order), its
reserved seats and its `next_user_notified` cursor. -/
structure NotifyState where
  wait_queue_notifications : List WQNotification
  wait_queue : List Nat
  reserved_seats : Nat
  next_user_notified : Nat
deriving DecidableEq

inductive NotifyResponse
  | tooSoon
  | noReservedSeats
  | noContent
deriving DecidableEq

/-- Modelled from the spec: `Retreat.notify_users` is a model method not
under src/.  Per §4.5, for as many reserved seats as the retreat holds it
notifies the next not-yet-notified users in queue order, advancing the
cursor and creating one `WaitQueueNotification` row per notified user, and
reports whether anyone was notified. -/
def notify_users (s : NotifyState) (now : Int) : NotifyState × Bool :=
  let users := (s.wait_queue.drop s.next_user_notified).take s.reserved_seats
  ({ s with
      wait_queue_notifications :=
        s.wait_queue_notifications ++ users.map fun u => ⟨u, now⟩
      next_user_notified := s.next_user_notified + users.length },
    !users.isEmpty)

namespace RetreatViewSet

/-- Embeds `RetreatViewSet.notify` (src/retirement/views.py:112-163).
`lifetimeDays` is `settings.LOCAL_SETTINGS` key
RETREAT_NOTIFICATION_LIFETIME_DAYS.  The code first deletes the retreat's
notification rows older than the retention window, then, unless some
remaining row is younger than 23 hours 55 minutes (1435 minutes), runs
`notify_users`; in the younger case it answers that the last notification
was sent less than 24h ago. -/
def notify (s : NotifyState) (now : Int) (lifetimeDays : Nat) :
    NotifyState × NotifyResponse :=
  let time_limit := now - 1435
  let remove_before := now - 1440 * (lifetimeDays : Int)
  let s1 := { s with
    wait_queue_notifications :=
      s.wait_queue_notifications.filter fun n =>
        !decide (n.created_at < remove_before) }
  if (s1.wait_queue_notifications.filter fun n =>
      decide (time_limit < n.created_at)).isEmpty then
    let step := notify_users s1 now
    if step.2 then (step.1, .noContent) else (step.1, .noReservedSeats)
  else
    (s1, .tooSoon)

end RetreatViewSet

/-! ## `WaitQueueViewSet.destroy` (views.py:535-552), unsubscribe -/

structure WQEntry where
  id : Nat
  user : Nat
  created_at : Int
deriving DecidableEq

/-- The data `WaitQueueViewSet.destroy` touches on one retreat: its wait
queue rows listed in `created_at` order (the `order_by('created_at')` the
code applies), its `next_user_notified` cursor and its notification rows. -/
structure WQState where
  queue : List WQEntry
  next_user_notified : Nat
  notifications : List WQNotification
deriving DecidableEq

/-- The `list(...).index(wait_queue_object)` of views.py:541: the position
of the row in the `created_at`-ordered queue (rows compare by primary
key). -/
def wait_queue_pos (s : WQState) (e : WQEntry) : Nat :=
  s.queue.findIdx fun x => x.id == e.id

namespace WaitQueueViewSet

/-- Embeds `WaitQueueViewSet.destroy` (src/retirement/views.py:535-552):
if the row's queue position is before `next_user_notified`, the cursor is
decremented; every `WaitQueueNotification` of this (user, retreat) pair is
deleted; then the wait-queue row itself is deleted. -/
def destroy (s : WQState) (e : WQEntry) : WQState :=
  let pos := wait_queue_pos s e
  let cursor :=
    if pos < s.next_user_notified then s.next_user_notified - 1
    else s.next_user_notified
  { queue := s.queue.filter fun x => x.id != e.id
    next_user_notified := cursor
    notifications := s.notifications.filter fun n => n.user != e.user }

end WaitQueueViewSet

/-! ## Concrete inputs used by the witness theorems -/

/-- A selling-tax rate of 14.975 percent. -/
def taxSample : ℚ := 14975 / 100000

def c3State : DestroyState :=
  { res := { is_active := true, cancelation_reason := .none,
             cancelation_action := .none, cancelation_date := none }
    order_line := some { quantity := 1, cost := 200, refunded := false }
    retreat := { seats := 10, reserved_seats := 0, start_time := 100000,
                 min_day_refund := 7, refund_rate := 50 }
    otherActive := 3 }

def c7State : DestroyState :=
  { res := { is_active := true, cancelation_reason := .none,
             cancelation_action := .none, cancelation_date := none }
    order_line := some { quantity := 1, cost := 200, refunded := false }
    retreat := { seats := 10, reserved_seats := 2, start_time := 100000,
                 min_day_refund := 7, refund_rate := 50 }
    otherActive := 3 }

def c9Line : OrderLineRec := { quantity := 2, cost := 200, refunded := false }

def c9State : DestroyState :=
  { res := { is_active := true, cancelation_reason := .none,
             cancelation_action := .none, cancelation_date := none }
    order_line := some c9Line
    retreat := { seats := 10, reserved_seats := 0, start_time := 100000,
                 min_day_refund := 7, refund_rate := 50 }
    otherActive := 3 }

def c9Env : ExchangeEnv :=
  { quantity := 2, oldPrice := 100, newPrice := 199, sameRetirement := false
    oldStart := 100000, min_day_exchange := 7, newStart := 200000
    newEnd := 300000, otherReservations := [], hasProfile := true
    payment_token := true, single_use_token := false, nseats := 10
    ntotal := 0, nreserved := 0, userInWaitQueue := false, userNotifs := 0 }

def c1Row : ResRow :=
  { user := 1, retirement := 5, order_line := 9, is_active := true,
    start_time := 0, end_time := 10 }

def c1Data : ReservationData :=
  { user := 1, retirement := 5, order_line := 9, is_active := true }

def c10State : DestroyState :=
  { res := { is_active := false, cancelation_reason := .user,
             cancelation_action := .notRefunded, cancelation_date := some 5 }
    order_line := some { quantity := 1, cost := 200, refunded := false }
    retreat := { seats := 10, reserved_seats := 0, start_time := 100000,
                 min_day_refund := 7, refund_rate := 50 }
    otherActive := 3 }

/-- C2 counterexample input: the requested retirement is full
(seats 0, one reserved seat), the user holds a notification row and a
wait-queue row for it, and the new price is higher than the old one. -/
def c2Env : ExchangeEnv :=
  { quantity := 1, oldPrice := 100, newPrice := 199, sameRetirement := false
    oldStart := 100000, min_day_exchange := 7, newStart := 200000
    newEnd := 300000, otherReservations := [], hasProfile := true
    payment_token := true, single_use_token := false, nseats := 0
    ntotal := 0, nreserved := 1, userInWaitQueue := true, userNotifs := 1 }

def c4Env : ExchangeEnv :=
  { quantity := 1, oldPrice := 100, newPrice := 199, sameRetirement := false
    oldStart := 100000, min_day_exchange := 7, newStart := 200000
    newEnd := 300000, otherReservations := [], hasProfile := true
    payment_token := true, single_use_token := false, nseats := 10
    ntotal := 0, nreserved := 0, userInWaitQueue := false, userNotifs := 0 }

def c4EnvNoToken : ExchangeEnv :=
  { c4Env with payment_token := false, single_use_token := false }

/-- The outcome of the `c4Env` exchange: a price delta of 99 at a tax rate
of 14.975 percent is 113.82525, so the gateway is charged
`int(round(11382.525, 2)) = 11382` cents, and the local refund row records
the old price with tax, `100 * 1.14975`. -/
def c4Out : ExchangeOutcome :=
  { charges := [11382], gatewayRefunds := [], refundRows := [4599 / 40]
    reservedAfter := 0, notifsAfter := 0, userInWaitQueueAfter := false
    profileCreated := false, oldMarkedExchanged := true }

def c5State : NotifyState :=
  { wait_queue_notifications := [{ user := 7, created_at := 0 }]
    wait_queue := [3, 4], reserved_seats := 1, next_user_notified := 0 }

def c6Entry : WQEntry := { id := 1, user := 4, created_at := 0 }

def c6State : WQState :=
  { queue := [c6Entry, { id := 2, user := 5, created_at := 10 }]
    next_user_notified := 1
    notifications := [{ user := 4, created_at := 0 }, { user := 5, created_at := 0 }] }

/-! Theorems -/

/-- The availability test of the exchange sub-flow holds exactly when a
place remains or the retirement has reserved seats and the user has a
notification row for it. -/
theorem exchangeSeatAvailable_iff (env : ExchangeEnv) :
    exchangeSeatAvailable env = true ↔
      (0 < (env.nseats : Int) - env.ntotal - env.nreserved ∨
        (env.nreserved ≠ 0 ∧ env.userNotifs ≠ 0)) := by
  simp [exchangeSeatAvailable]

/-- C4: In the exchange sub-flow, when the new retirement's price is
strictly greater than the current one the amount charged through the
gateway is exactly the price difference plus proportional tax converted to
integer cents, and a payment_token or single_use_token is required, the
update failing with a validation error when neither is given; when the new
price is strictly lower the gateway is asked to refund exactly the price
difference plus proportional tax in integer cents. -/
theorem exchange_charges_and_refunds_exact_delta
    (t : ℚ) (env : ExchangeEnv) (now : Int) :
    (env.quantity ≤ 1 → env.oldPrice < env.newPrice →
      env.payment_token = false → env.single_use_token = false →
      ReservationSerializer.update t env now = .error .paymentTokenRequired) ∧
    (∀ out, ReservationSerializer.update t env now = .ok out →
      (env.oldPrice < env.newPrice →
        out.charges = [toCents ((env.newPrice - env.oldPrice) * (1 + t))] ∧
        out.gatewayRefunds = []) ∧
      (env.newPrice < env.oldPrice →
        out.gatewayRefunds = [toCents ((env.oldPrice - env.newPrice) * (1 + t))] ∧
        out.charges = [])) := by
  constructor
  · intro hq hlt hp hs
    have hq' : ¬1 < env.quantity := by omega
    simp [ReservationSerializer.update, hq', hlt, hp, hs]
  · intro out hout
    by_cases hq : 1 < env.quantity
    · simp [ReservationSerializer.update, hq] at hout
    · by_cases hlt : env.oldPrice < env.newPrice
      · have hgt : ¬env.newPrice < env.oldPrice := lt_asymm hlt
        simp only [ReservationSerializer.update, hq, if_false, hlt, hgt,
          decide_True, decide_False, Bool.true_and, Bool.false_and,
          Bool.and_false, Bool.and_true, if_true, ite_false, ite_true] at hout
        repeat' split at hout
        all_goals cases hout
        all_goals exact ⟨fun _ => ⟨rfl, rfl⟩, fun h => absurd h hgt⟩
      · by_cases hgt : env.newPrice < env.oldPrice
        · simp only [ReservationSerializer.update, hq, if_false, hlt, hgt,
            decide_True, decide_False, Bool.true_and, Bool.false_and,
            Bool.and_false, Bool.and_true, if_true, ite_false, ite_true] at hout
          repeat' split at hout
          all_goals cases hout
          all_goals exact ⟨fun h => absurd h hlt, fun _ => ⟨rfl, rfl⟩⟩
        · simp only [ReservationSerializer.update, hq, if_false, hlt, hgt,
            decide_True, decide_False, Bool.true_and, Bool.false_and,
            Bool.and_false, Bool.and_true, if_true, ite_false, ite_true] at hout
          repeat' split at hout
          all_goals cases hout
          all_goals exact ⟨fun h => absurd h hlt, fun h => absurd h hgt⟩

/-- C4 witness: without a token the concrete pricier exchange fails asking
for one; with a payment token it charges exactly 11382 cents, the cent
conversion of the price delta 99 plus 14.975 percent tax. -/
theorem exchange_charges_and_refunds_exact_delta_witness :
    ReservationSerializer.update taxSample c4EnvNoToken 0 =
      .error .paymentTokenRequired ∧
    ReservationSerializer.update taxSample c4Env 0 = .ok c4Out ∧
    c4Out.charges =
      [toCents ((c4Env.newPrice - c4Env.oldPrice) * (1 + taxSample))] := by
  have hm : ReservationSerializer.update taxSample c4Env 0 = .ok c4Out := by
    norm_num [ReservationSerializer.update, exchangeSeatAvailable, pyInt,
      round2, roundHalfEven, taxSample, c4Env, c4Out]
  refine ⟨?_, hm, ?_⟩
  · exact (exchange_charges_and_refunds_exact_delta taxSample c4EnvNoToken 0).1
      (by norm_num [c4EnvNoToken, c4Env]) (by norm_num [c4EnvNoToken, c4Env])
      rfl rfl
  · exact (((exchange_charges_and_refunds_exact_delta taxSample c4Env 0).2
      c4Out hm).1 (by norm_num [c4Env])).1

/-- C2 counterexample: the requested retirement of `c2Env` is full
(places_remaining not positive), it has one reserved seat and the user
holds a WaitQueueNotification row, so the exchange booking succeeds — but
`reserved_seats` stays at 1 (no seat consumed) and the notification row
count stays at 1 (not removed), where the claim requires the decrement and
the removal. -/
theorem exchange_booking_keeps_reserved_seat_and_notification :
    (c2Env.nseats : Int) - c2Env.ntotal - c2Env.nreserved ≤ 0 ∧
    c2Env.nreserved = 1 ∧
    c2Env.userNotifs = 1 ∧
    exchangeOk (ReservationSerializer.update taxSample c2Env 0) = true ∧
    (ReservationSerializer.update taxSample c2Env 0).toOption.map
      ExchangeOutcome.reservedAfter = some 1 ∧
    (ReservationSerializer.update taxSample c2Env 0).toOption.map
      ExchangeOutcome.notifsAfter = some 1 := by
  refine ⟨by norm_num [c2Env], by norm_num [c2Env], by norm_num [c2Env],
    ?_, ?_, ?_⟩ <;>
    norm_num [ReservationSerializer.update, exchangeSeatAvailable, exchangeOk,
      pyInt, round2, roundHalfEven, taxSample, c2Env, Except.toOption]

/-- C2 (amended): When every precondition of the exchange apart from seats
holds (quantity 1, different retirement, early enough, no overlap), an
exchange whose new price is strictly higher (with a payment token and a
nonzero cent amount) or strictly lower succeeds iff a place remains or the
requested retirement has reserved seats and the user holds some
WaitQueueNotification row for it (no expiry recheck); every successful
exchange leaves `reserved_seats` and the notification rows of the requested
retirement unchanged while it removes the user's wait-queue rows when the
prices differ; an equal-price exchange skips the availability test
entirely and succeeds without touching the wait queue. -/
theorem exchange_availability_and_reserved_seats
    (t : ℚ) (env : ExchangeEnv) (now : Int)
    (hq : env.quantity ≤ 1)
    (hsame : env.sameRetirement = false)
    (hresp : 1440 * (env.min_day_exchange : Int) ≤ env.oldStart - now)
    (hover : ∀ r ∈ env.otherReservations,
      ¬(max r.1 env.newStart < min r.2 env.newEnd)) :
    (env.oldPrice < env.newPrice → env.payment_token = true →
      pyInt (round2 ((env.newPrice - env.oldPrice) * (1 + t) * 100)) ≠ 0 →
      (exchangeOk (ReservationSerializer.update t env now) = true ↔
        (0 < (env.nseats : Int) - env.ntotal - env.nreserved ∨
          (env.nreserved ≠ 0 ∧ env.userNotifs ≠ 0)))) ∧
    (env.newPrice < env.oldPrice →
      (exchangeOk (ReservationSerializer.update t env now) = true ↔
        (0 < (env.nseats : Int) - env.ntotal - env.nreserved ∨
          (env.nreserved ≠ 0 ∧ env.userNotifs ≠ 0)))) ∧
    (∀ out, ReservationSerializer.update t env now = .ok out →
      out.reservedAfter = env.nreserved ∧
      out.notifsAfter = env.userNotifs ∧
      (env.oldPrice ≠ env.newPrice → out.userInWaitQueueAfter = false)) ∧
    (env.oldPrice = env.newPrice →
      ReservationSerializer.update t env now =
        .ok ⟨[], [], [], env.nreserved, env.userNotifs, env.userInWaitQueue,
          false, true⟩) := by
  have hq' : ¬1 < env.quantity := by omega
  have hov : (env.otherReservations.any fun r =>
      decide (max r.1 env.newStart < min r.2 env.newEnd)) = false := by
    by_contra hc
    rw [Bool.not_eq_false, List.any_eq_true] at hc
    obtain ⟨r, hr, hrt⟩ := hc
    exact hover r hr (of_decide_eq_true hrt)
  refine ⟨?_, ?_, ?_, ?_⟩
  · intro hlt hp hcz
    rw [← exchangeSeatAvailable_iff env]
    have hgt : ¬env.newPrice < env.oldPrice := lt_asymm hlt
    by_cases hav : exchangeSeatAvailable env = true
    · simp only [hav, iff_true]
      simp [ReservationSerializer.update, hq', hlt, hgt, hsame, hresp,
        hav, hp, hcz, exchangeOk]
      rw [if_neg]
      · rw [hov]
        simp
    · have hav' : exchangeSeatAvailable env = false := by
        revert hav; cases exchangeSeatAvailable env <;> simp
      simp only [hav', Bool.false_eq_true, iff_false]
      simp [ReservationSerializer.update, hq', hlt, hgt, hsame, hresp,
        hav', hp, hcz, exchangeOk]
      rw [if_neg]
      · rw [hov]
        simp
  · intro hgt
    rw [← exchangeSeatAvailable_iff env]
    have hlt : ¬env.oldPrice < env.newPrice := lt_asymm hgt
    by_cases hav : exchangeSeatAvailable env = true
    · simp only [hav, iff_true]
      simp [ReservationSerializer.update, hq', hlt, hgt, hsame, hresp,
        hav, exchangeOk]
      rw [if_neg]
      · rw [hov]
        simp
    · have hav' : exchangeSeatAvailable env = false := by
        revert hav; cases exchangeSeatAvailable env <;> simp
      simp only [hav', Bool.false_eq_true, iff_false]
      simp [ReservationSerializer.update, hq', hlt, hgt, hsame, hresp,
        hav', exchangeOk]
      rw [if_neg]
      · rw [hov]
        simp
  · intro out hout
    by_cases hlt : env.oldPrice < env.newPrice
    · have hgt : ¬env.newPrice < env.oldPrice := lt_asymm hlt
      simp only [ReservationSerializer.update, hq', if_false, hlt, hgt,
        decide_True, decide_False, Bool.true_and, Bool.false_and,
        Bool.and_false, Bool.and_true, if_true, ite_false, ite_true] at hout
      repeat' split at hout
      all_goals cases hout
      all_goals exact ⟨rfl, rfl, fun _ => rfl⟩
    · by_cases hgt : env.newPrice < env.oldPrice
      · simp only [ReservationSerializer.update, hq', if_false, hlt, hgt,
          decide_True, decide_False, Bool.true_and, Bool.false_and,
          Bool.and_false, Bool.and_true, if_true, ite_false, ite_true] at hout
        repeat' split at hout
        all_goals cases hout
        all_goals exact ⟨rfl, rfl, fun _ => rfl⟩
      · have heq : env.oldPrice = env.newPrice := le_antisymm
          (not_lt.mp hgt) (not_lt.mp hlt)
        simp only [ReservationSerializer.update, hq', if_false, hlt, hgt,
          decide_True, decide_False, Bool.true_and, Bool.false_and,
          Bool.and_false, Bool.and_true, if_true, ite_false, ite_true] at hout
        repeat' split at hout
        all_goals cases hout
        all_goals exact ⟨rfl, rfl, fun h => absurd heq h⟩
  · intro heq
    have hlt : ¬env.oldPrice < env.newPrice := by rw [heq]; exact lt_irrefl _
    have hgt : ¬env.newPrice < env.oldPrice := by rw [heq]; exact lt_irrefl _
    simp [ReservationSerializer.update, hq', hlt, hgt, hsame, hresp]
    intro x y hmem h1 h2 h3
    by_contra hc
    push_neg at hc
    exact hover (x, y) hmem
      (lt_min_iff.mpr ⟨max_lt_iff.mpr ⟨h1, h2⟩, max_lt_iff.mpr ⟨h3, hc⟩⟩)

/-- C2 witness: at the concrete full retirement with one reserved seat and
one notification row, the amended availability rule makes the exchange
succeed. -/
theorem exchange_availability_and_reserved_seats_witness :
    exchangeOk (ReservationSerializer.update taxSample c2Env 0) = true := by
  have h := (exchange_availability_and_reserved_seats taxSample c2Env 0
    (by norm_num [c2Env]) (by norm_num [c2Env]) (by norm_num [c2Env])
    (by norm_num [c2Env])).1
  exact (h (by norm_num [c2Env]) (by norm_num [c2Env])
    (by norm_num [c2Env, pyInt, round2, roundHalfEven, taxSample])).mpr
    (Or.inr ⟨by norm_num [c2Env], by norm_num [c2Env]⟩)

/-- C3: Canceling an active reservation soft-cancels it, setting
is_active to false, the cancelation reason to user-initiated and the
cancelation date to the current time; if the cancellation happens at least
min_day_refund days before the event's start time and the order line is
refundable (quantity 1, not already refunded), a gateway refund of
refund_rate percent of the paid price plus proportional tax is issued and
the cancelation action is Refunded; in every other case the cancelation
action is Not-refunded and the gateway refund operation is never called. -/
theorem destroy_soft_cancel_and_refund_policy
    (t : ℚ) (s : DestroyState) (now : Int)
    (ha : s.res.is_active = true)
    (hq : (s.order_line.map OrderLineRec.quantity).getD 0 ≤ 1) :
    (ReservationViewSet.destroy t s now).resp = .noContent ∧
    (ReservationViewSet.destroy t s now).state.res.is_active = false ∧
    (ReservationViewSet.destroy t s now).state.res.cancelation_reason = .user ∧
    (ReservationViewSet.destroy t s now).state.res.cancelation_date = some now ∧
    (∀ ol, s.order_line = some ol → ol.quantity = 1 → ol.refunded = false →
      1440 * (s.retreat.min_day_refund : Int) ≤ s.retreat.start_time - now →
      (ReservationViewSet.destroy t s now).state.res.cancelation_action =
          .refunded ∧
        (ReservationViewSet.destroy t s now).refunds =
          [make_refund t s.retreat.refund_rate ol.cost]) ∧
    (¬(1440 * (s.retreat.min_day_refund : Int) ≤ s.retreat.start_time - now ∧
        ∃ ol, s.order_line = some ol ∧ ol.quantity = 1 ∧ ol.refunded = false) →
      (ReservationViewSet.destroy t s now).state.res.cancelation_action =
          .notRefunded ∧
        (ReservationViewSet.destroy t s now).refunds = []) := by
  have hq' : ¬1 < (s.order_line.map OrderLineRec.quantity).getD 0 := by omega
  refine ⟨?_, ?_, ?_, ?_, ?_, ?_⟩
  · simp [ReservationViewSet.destroy, ha, hq']
  · simp [ReservationViewSet.destroy, ha, hq']
  · simp [ReservationViewSet.destroy, ha, hq']
  · simp [ReservationViewSet.destroy, ha, hq']
  · intro ol hol h1 h2 h3
    have hr : respectsMinDayRefund s now = true := by
      simp [respectsMinDayRefund, h3]
    simp [ReservationViewSet.destroy, ha, hq', hr, hol, refundableOL, h1, h2]
  · intro hn
    have hb : (respectsMinDayRefund s now &&
        (s.order_line.map refundableOL).getD false) = false := by
      by_cases hr : respectsMinDayRefund s now = true
      · have hd : 1440 * (s.retreat.min_day_refund : Int) ≤
            s.retreat.start_time - now := by
          have := hr
          simpa [respectsMinDayRefund] using this
        cases hol : s.order_line with
        | none => simp [hol]
        | some ol =>
          have : refundableOL ol = false := by
            by_contra hc
            have hc' : refundableOL ol = true := by
              revert hc; cases refundableOL ol <;> simp
            have h1 : ol.quantity = 1 := by
              have := hc'
              simp [refundableOL] at this
              exact this.1
            have h2 : ol.refunded = false := by
              have := hc'
              simp [refundableOL] at this
              simpa using this.2
            exact hn ⟨hd, ol, hol, h1, h2⟩
          simp [hol, this]
      · have hr' : respectsMinDayRefund s now = false := by
          revert hr; cases respectsMinDayRefund s now <;> simp
        simp [hr']
    simp [ReservationViewSet.destroy, ha, hq', hb]

/-- C3 witness: at the concrete cancellation state, the response is 204,
the action is Refunded and the refund amount is the spec's
refund_rate-percent-plus-tax value. -/
theorem destroy_soft_cancel_and_refund_policy_witness :
    (ReservationViewSet.destroy taxSample c3State 0).resp = .noContent ∧
    (ReservationViewSet.destroy taxSample c3State 0).state.res.cancelation_action =
      .refunded ∧
    (ReservationViewSet.destroy taxSample c3State 0).refunds =
      [make_refund taxSample 50 200] := by
  have h := destroy_soft_cancel_and_refund_policy taxSample c3State 0 rfl
    (by decide)
  have h5 := h.2.2.2.2.1 { quantity := 1, cost := 200, refunded := false }
    rfl rfl rfl (by decide)
  exact ⟨h.1, h5.1, h5.2⟩

/-- C7: After every successful user cancellation of an active reservation,
reserved_seats is incremented by exactly one if the event already had
reserved_seats greater than 0 or the cancellation leaves exactly one place
remaining, is left unchanged otherwise, and the wait-queue promotion check
is triggered. -/
theorem destroy_reevaluates_reserved_seats
    (t : ℚ) (s : DestroyState) (now : Int)
    (ha : s.res.is_active = true)
    (hq : (s.order_line.map OrderLineRec.quantity).getD 0 ≤ 1) :
    (ReservationViewSet.destroy t s now).notifiedScheduler = true ∧
    (0 < s.retreat.reserved_seats ∨ placesRemainingAfterCancel s = 1 →
      (ReservationViewSet.destroy t s now).state.retreat.reserved_seats =
        s.retreat.reserved_seats + 1) ∧
    (¬(0 < s.retreat.reserved_seats ∨ placesRemainingAfterCancel s = 1) →
      (ReservationViewSet.destroy t s now).state.retreat.reserved_seats =
        s.retreat.reserved_seats) := by
  have hq' : ¬1 < (s.order_line.map OrderLineRec.quantity).getD 0 := by omega
  refine ⟨?_, ?_, ?_⟩
  · simp [ReservationViewSet.destroy, ha, hq']
  · intro hc
    have hb : (s.retreat.reserved_seats != 0 ||
        placesRemainingAfterCancel s == 1) = true := by
      rcases hc with hc | hc
      · simp [Nat.pos_iff_ne_zero.mp hc]
      · simp [hc]
    simp [ReservationViewSet.destroy, ha, hq', hb]
  · intro hc
    push_neg at hc
    have h0 : s.retreat.reserved_seats = 0 := by omega
    have hb : (s.retreat.reserved_seats != 0 ||
        placesRemainingAfterCancel s == 1) = false := by
      simp [h0, hc.2]
    simp [ReservationViewSet.destroy, ha, hq', hb]

/-- C7 witness: the concrete retreat already holds two reserved seats, so a
cancellation bumps them to three and pings the scheduler. -/
theorem destroy_reevaluates_reserved_seats_witness :
    (ReservationViewSet.destroy taxSample c7State 0).notifiedScheduler = true ∧
    (ReservationViewSet.destroy taxSample c7State 0).state.retreat.reserved_seats =
      c7State.retreat.reserved_seats + 1 := by
  have h := destroy_reevaluates_reserved_seats taxSample c7State 0 rfl (by decide)
  exact ⟨h.1, h.2.1 (Or.inl (by decide))⟩

/-- C9: For every reservation whose order line has quantity strictly greater
than one, both the exchange (partial update changing the retirement) and the
cancellation (destroy of an active reservation) are rejected with the
support-contact validation error, leaving the reservation and its event
unchanged (the exchange error aborts the atomic transaction; the destroy
outcome carries back the untouched state, an empty refund list and no
scheduler ping). -/
theorem quantity_above_one_blocks_exchange_and_cancel
    (t : ℚ) (env : ExchangeEnv) (now : Int)
    (s : DestroyState) (now2 : Int) (ol : OrderLineRec)
    (henv : 1 < env.quantity)
    (hol : s.order_line = some ol) (holq : 1 < ol.quantity)
    (ha : s.res.is_active = true) :
    ReservationSerializer.update t env now = .error .quantityGt1 ∧
    ReservationViewSet.destroy t s now2 = ⟨s, .quantityError, [], false⟩ := by
  constructor
  · simp [ReservationSerializer.update, henv]
  · simp [ReservationViewSet.destroy, ha, hol, holq]

/-- C9 witness: with an order line of quantity two, the concrete exchange
and the concrete cancellation both fail with the support-contact error. -/
theorem quantity_above_one_blocks_exchange_and_cancel_witness :
    ReservationSerializer.update taxSample c9Env 0 = .error .quantityGt1 ∧
    ReservationViewSet.destroy taxSample c9State 0 =
      ⟨c9State, .quantityError, [], false⟩ :=
  quantity_above_one_blocks_exchange_and_cancel taxSample c9Env 0 c9State 0
    c9Line (by decide) rfl (by decide) rfl

/-- C5: For every event, calling notify while some WaitQueueNotification
for that event was created within the preceding 23 hours 55 minutes (the
24-hour window with the 5-minute grace) reports that the last notification
was sent less than 24h ago, creates no new WaitQueueNotification records
(the rows after the call are a sublist of the rows before, only the
retention purge may drop stale ones), and leaves the wait queue, the
reserved seats and the notification cursor untouched.  The retention
window `lifetimeDays` is at least one day, so a notification inside the
23h55m window is never purged. -/
theorem notify_within_window_reports_too_soon
    (s : NotifyState) (now : Int) (lifetimeDays : Nat)
    (hl : 1 ≤ lifetimeDays)
    (hrecent : ∃ n ∈ s.wait_queue_notifications, now - 1435 < n.created_at) :
    (RetreatViewSet.notify s now lifetimeDays).2 = .tooSoon ∧
    (RetreatViewSet.notify s now
      lifetimeDays).1.wait_queue_notifications.Sublist
      s.wait_queue_notifications ∧
    (RetreatViewSet.notify s now lifetimeDays).1.wait_queue = s.wait_queue ∧
    (RetreatViewSet.notify s now lifetimeDays).1.reserved_seats =
      s.reserved_seats ∧
    (RetreatViewSet.notify s now lifetimeDays).1.next_user_notified =
      s.next_user_notified := by
  obtain ⟨n, hn, hlt⟩ := hrecent
  have hsurv : (!decide (n.created_at <
      now - 1440 * (lifetimeDays : Int))) = true := by
    simp only [Bool.not_eq_true', decide_eq_false_iff_not]
    omega
  have hmem2 : n ∈ (s.wait_queue_notifications.filter fun m =>
      !decide (m.created_at < now - 1440 * (lifetimeDays : Int))).filter
      fun m => decide (now - 1435 < m.created_at) :=
    List.mem_filter.mpr ⟨List.mem_filter.mpr ⟨hn, hsurv⟩, decide_eq_true hlt⟩
  have hcond : ¬(((s.wait_queue_notifications.filter fun m =>
      !decide (m.created_at < now - 1440 * (lifetimeDays : Int))).filter
      fun m => decide (now - 1435 < m.created_at)).isEmpty = true) := by
    intro hemp
    rw [List.isEmpty_iff] at hemp
    rw [hemp] at hmem2
    exact List.not_mem_nil n hmem2
  simp only [RetreatViewSet.notify]
  rw [if_neg hcond]
  exact ⟨rfl, List.filter_sublist _, rfl, rfl, rfl⟩

/-- C5 witness: one notification row five minutes old blocks the concrete
notify call, which reports too-soon and moves no cursor. -/
theorem notify_within_window_reports_too_soon_witness :
    (RetreatViewSet.notify c5State 5 1).2 = .tooSoon ∧
    (RetreatViewSet.notify c5State 5 1).1.next_user_notified =
      c5State.next_user_notified := by
  have h := notify_within_window_reports_too_soon c5State 5 1 (by decide)
    ⟨{ user := 7, created_at := 0 }, by decide, by decide⟩
  exact ⟨h.1, h.2.2.2.2⟩

/-- C6: Unsubscribing (deleting) a WaitQueue entry whose position in the
created_at-ordered queue is strictly before the retreat's
next_user_notified cursor decrements the cursor by exactly one; deleting an
entry at or after the cursor leaves the cursor unchanged; in both cases
every WaitQueueNotification of that (user, event) pair is deleted, and the
entry itself leaves the queue. -/
theorem unsubscribe_moves_cursor_and_clears_notifications
    (s : WQState) (e : WQEntry) (_he : e ∈ s.queue) :
    (wait_queue_pos s e < s.next_user_notified →
      (WaitQueueViewSet.destroy s e).next_user_notified =
        s.next_user_notified - 1) ∧
    (s.next_user_notified ≤ wait_queue_pos s e →
      (WaitQueueViewSet.destroy s e).next_user_notified =
        s.next_user_notified) ∧
    (∀ n ∈ (WaitQueueViewSet.destroy s e).notifications, n.user ≠ e.user) ∧
    e.id ∉ (WaitQueueViewSet.destroy s e).queue.map WQEntry.id := by
  refine ⟨?_, ?_, ?_, ?_⟩
  · intro hpos
    simp [WaitQueueViewSet.destroy, hpos]
  · intro hpos
    simp [WaitQueueViewSet.destroy, Nat.not_lt.mpr hpos]
  · intro n hn
    have := (List.mem_filter.mp hn).2
    simpa using this
  · intro hc
    obtain ⟨x, hx, hxid⟩ := List.mem_map.mp hc
    have := (List.mem_filter.mp hx).2
    simp [hxid] at this

/-- C6 witness: removing the first (position 0) entry while the cursor is 1
pulls the cursor back to 0. -/
theorem unsubscribe_moves_cursor_and_clears_notifications_witness :
    (WaitQueueViewSet.destroy c6State c6Entry).next_user_notified = 0 := by
  have h := unsubscribe_moves_cursor_and_clears_notifications c6State c6Entry
    (by decide)
  exact h.1 (by decide)

/-- C10: Cancellation is idempotent: destroying an already-inactive
reservation returns the same empty success response as a first deletion,
issues no gateway refund and changes nothing, and for every reservation
applying destroy twice yields the same final state as applying it once
(the second pass also never calls the gateway). -/
theorem destroy_idempotent (t : ℚ) (s : DestroyState) (now now2 : Int) :
    (s.res.is_active = false →
      ReservationViewSet.destroy t s now = ⟨s, .noContent, [], false⟩) ∧
    (ReservationViewSet.destroy t
        (ReservationViewSet.destroy t s now).state now2).state =
      (ReservationViewSet.destroy t s now).state ∧
    (ReservationViewSet.destroy t
        (ReservationViewSet.destroy t s now).state now2).refunds = [] := by
  by_cases ha : s.res.is_active
  · refine ⟨fun h => by simp [h] at ha, ?_, ?_⟩ <;>
      by_cases hq : 1 < (s.order_line.map OrderLineRec.quantity).getD 0 <;>
        simp [ReservationViewSet.destroy, ha, hq]
  · have ha' : s.res.is_active = false := by
      revert ha; cases s.res.is_active <;> simp
    refine ⟨fun _ => ?_, ?_, ?_⟩ <;> simp [ReservationViewSet.destroy, ha']

/-- C10 witness: destroying the concrete inactive reservation is a no-op
with a 204 response, and a second destroy keeps the state fixed. -/
theorem destroy_idempotent_witness :
    ReservationViewSet.destroy taxSample c10State 0 =
      ⟨c10State, .noContent, [], false⟩ ∧
    (ReservationViewSet.destroy taxSample
        (ReservationViewSet.destroy taxSample c10State 0).state 1).state =
      (ReservationViewSet.destroy taxSample c10State 0).state := by
  have h := destroy_idempotent taxSample c10State 0 1
  exact ⟨h.1 rfl, h.2.1⟩

/-- C8: For every event, the reported places_remaining equals seats minus
the number of active reservations for that event minus reserved_seats. -/
theorem get_places_remaining_eq_seats_sub_active_sub_reserved
    (obj : RetirementObj) :
    RetirementSerializer.get_places_remaining obj =
      (obj.seats : Int) - (obj.reservations.countP fun r => r.is_active) -
        obj.reserved_seats := by
  simp [RetirementSerializer.get_places_remaining, List.countP_eq_length_filter]

/-- C1: evaluation at the failing input.  The user already holds an active
reservation over `[0, 10)` for retirement 5; a creation request for the same
user with identical submitted fields and the same interval passes
`ReservationSerializer.validate` (returns `.ok`), because
`.exclude(**validated_data)` removes the existing row from the overlap
comparison, although that row is active, belongs to the same user and its
interval overlaps the requested one. -/
theorem validate_accepts_duplicate_overlap :
    ReservationSerializer.validate c1Data 0 10 [c1Row] = .ok () ∧
    c1Row.is_active = true ∧
    c1Row.user = c1Data.user ∧
    max c1Row.start_time (0 : Int) < min c1Row.end_time (10 : Int) :=
  ⟨rfl, rfl, rfl, by decide⟩

end Blitz
